import Mathlib

/-!
Verification of the authorization and content-access core of the
free-astro-template repository: the request-time Session Gate
(`src/middleware.ts`, `onRequest`), the auth helpers (`src/lib/auth.ts`,
`getCurrentUser`), and the storage-layer row-level-security policies
(`supabase/migrations/..._add_authentication_security.sql`).

The embedding is shallow: the middleware and helpers become pure Lean
functions over an explicit cookie jar and an abstract Supabase backend
(so the same backend responses can be replayed); each SQL RLS policy
becomes a decidable predicate over the `user_profiles` table state and
the affected row(s).
-/

namespace AstroCms

/-! ## Data model

The `role` column of `user_profiles` carries the SQL constraint
`CHECK (role IN ('admin', 'editor', 'viewer'))`, so it is embedded as a
closed three-variant type. -/

inductive Role where
  | admin
  | editor
  | viewer
deriving DecidableEq, Repr

/-- A row of the `user_profiles` table (id, email, full_name, role,
is_active; timestamps omitted as no claim mentions them). -/
structure ProfileRow where
  id : String
  email : String
  full_name : Option String
  role : Role
  is_active : Bool
deriving DecidableEq, Repr

/-- The projection of a profile row that the middleware selects
(`select('role, is_active')`). -/
structure GateProfile where
  role : Role
  is_active : Bool
deriving DecidableEq, Repr

/-- The `user_profiles` table state: a list of rows. `id` is the primary
key, so well-formed states have at most one row per id. -/
abbrev ProfilesTable := List ProfileRow

/-- A row of `page_content_sections` restricted to the columns the
policies consult: `created_by` (ownership) and `is_active` (public
visibility). -/
structure Section where
  created_by : String
  is_active : Bool
deriving DecidableEq, Repr

/-! ## Cookie jar

`context.cookies` is embedded as an association list from cookie name to
value; `cookies.get` and `cookies.delete` are the only operations the
code under verification performs. -/

abbrev CookieJar := List (String × String)

def cookieGet (jar : CookieJar) (name : String) : Option String :=
  (List.find? (fun p => p.1 == name) jar).map (fun p => p.2)

def cookieDelete (jar : CookieJar) (name : String) : CookieJar :=
  List.filter (fun p => p.1 != name) jar

/-! ## Supabase backend

The external Credential Store and Profile Repository are parameters of
the gate: `auth.getUser` can throw (caught by the middleware's
`try`/`catch`), return an error or null user, or resolve a user id; each
profile query can throw or return an optional row (`maybeSingle`). -/

/-- Outcome of `supabase.auth.getUser(accessToken)`: a thrown exception,
an `error`/null-`user` result, or a resolved user id. -/
inductive GetUserOutcome where
  | thrown
  | failure
  | success (userId : String)
deriving DecidableEq, Repr

/-- Outcome of a profile query (`.maybeSingle()`): a thrown exception, or
a fetched optional row. -/
inductive FetchOutcome (α : Type) where
  | thrown
  | fetched (row : Option α)
deriving DecidableEq, Repr

/-- The responses of the external Supabase services, fixed per request so
a request can be re-evaluated against the same responses. -/
structure Supabase where
  getUser : String → GetUserOutcome
  getGateProfile : String → FetchOutcome GateProfile
  getFullProfile : String → FetchOutcome ProfileRow

/-! ## Responses and security headers -/

/-- An HTTP response as the middleware observes it: an optional redirect
location plus a header list. `context.redirect(loc)` builds
`{ redirectTo := some loc, headers := [] }`. -/
structure Response where
  redirectTo : Option String
  headers : List (String × String)
deriving DecidableEq, Repr

def redirectResponse (loc : String) : Response :=
  { redirectTo := some loc, headers := [] }

/-- The `Headers.set` operation: replace the value if the name is
present, otherwise append. -/
def setHeader (hs : List (String × String)) (k v : String) :
    List (String × String) :=
  if hs.any (fun p => p.1 == k) then
    hs.map (fun p => if p.1 == k then (k, v) else p)
  else hs ++ [(k, v)]

def securityHeaders : List (String × String) :=
  [("X-Frame-Options", "DENY"),
   ("X-Content-Type-Options", "nosniff"),
   ("X-XSS-Protection", "1; mode=block"),
   ("Referrer-Policy", "strict-origin-when-cross-origin"),
   ("Permissions-Policy", "camera=(), microphone=(), geolocation=()")]

/-- The five `response.headers.set(...)` calls at the end of
`onRequest`, applied to a header list. -/
def stampHeaderList (hs : List (String × String)) : List (String × String) :=
  setHeader
    (setHeader
      (setHeader
        (setHeader
          (setHeader hs "X-Frame-Options" "DENY")
          "X-Content-Type-Options" "nosniff")
        "X-XSS-Protection" "1; mode=block")
      "Referrer-Policy" "strict-origin-when-cross-origin")
    "Permissions-Policy" "camera=(), microphone=(), geolocation=()"

/-- The effect of the five header-setting lines on the response returned
by `next()`. -/
def stampHeaders (r : Response) : Response :=
  { r with headers := stampHeaderList r.headers }

/-! ## The Session Gate (`src/middleware.ts`) -/

def protectedRoutes : List String := ["/cms-admin", "/admin"]

/-- JavaScript's `pathname.startsWith(route)`, expressed on the
character lists of the two strings so that it computes by structural
recursion. -/
def startsWith (path route : String) : Bool :=
  List.isPrefixOf route.data path.data

/-- The route test `protectedRoutes.some(route =>
context.url.pathname.startsWith(route))`. -/
def isProtectedRoute (path : String) : Bool :=
  protectedRoutes.any (fun route => startsWith path route)

/-- Everything the middleware produces or affects on one request: the
response it returns, the cookie jar after its mutations, the
`context.locals` it attaches, and whether each external call was made. -/
structure MidResult where
  response : Response
  jar : CookieJar
  locals : Option (String × GateProfile)
  calledGetUser : Bool
  calledGetProfile : Bool
deriving DecidableEq, Repr

/-- Shallow embedding of `onRequest`. `next` is the response the
downstream handler would produce. Early `return context.redirect(...)`
paths skip both `next()` and the header stamping. The `thrown` branches
are the `catch` block (redirect to `/login`, no cookie changes). -/
def onRequest (sb : Supabase) (path : String) (jar : CookieJar)
    (next : Response) : MidResult :=
  if isProtectedRoute path then
    match cookieGet jar "sb-access-token" with
    | none =>
        { response := redirectResponse "/login", jar := jar,
          locals := none, calledGetUser := false, calledGetProfile := false }
    | some accessToken =>
        if accessToken == "" then
          { response := redirectResponse "/login", jar := jar,
            locals := none, calledGetUser := false, calledGetProfile := false }
        else
          match sb.getUser accessToken with
          | .thrown =>
              { response := redirectResponse "/login", jar := jar,
                locals := none, calledGetUser := true,
                calledGetProfile := false }
          | .failure =>
              { response := redirectResponse "/login",
                jar := cookieDelete (cookieDelete jar "sb-access-token")
                  "sb-refresh-token",
                locals := none, calledGetUser := true,
                calledGetProfile := false }
          | .success userId =>
              match sb.getGateProfile userId with
              | .thrown =>
                  { response := redirectResponse "/login", jar := jar,
                    locals := none, calledGetUser := true,
                    calledGetProfile := true }
              | .fetched none =>
                  { response := redirectResponse "/login?error=inactive",
                    jar := jar, locals := none, calledGetUser := true,
                    calledGetProfile := true }
              | .fetched (some profile) =>
                  if !profile.is_active then
                    { response := redirectResponse "/login?error=inactive",
                      jar := jar, locals := none, calledGetUser := true,
                      calledGetProfile := true }
                  else if profile.role == Role.viewer then
                    { response :=
                        redirectResponse "/login?error=unauthorized",
                      jar := jar, locals := none, calledGetUser := true,
                      calledGetProfile := true }
                  else
                    { response := stampHeaders next, jar := jar,
                      locals := some (userId, profile),
                      calledGetUser := true, calledGetProfile := true }
  else
    { response := stampHeaders next, jar := jar, locals := none,
      calledGetUser := false, calledGetProfile := false }

/-! ## `getCurrentUser` (`src/lib/auth.ts`)

The function only reads the cookie jar, so the embedding threads the jar
through and returns it alongside the result, making the frame property a
statement rather than a typing accident. -/

/-- Shallow embedding of `getCurrentUser(cookies)`. Returns the optional
`(user id, profile)` pair and the cookie jar afterwards. Every early
`return null` (missing token, thrown during validation, `error`/null
user, thrown during the profile query, missing profile row) maps to
`(none, jar)`. -/
def getCurrentUser (sb : Supabase) (jar : CookieJar) :
    Option (String × ProfileRow) × CookieJar :=
  match cookieGet jar "sb-access-token" with
  | none => (none, jar)
  | some accessToken =>
      if accessToken == "" then (none, jar)
      else
        match sb.getUser accessToken with
        | .thrown => (none, jar)
        | .failure => (none, jar)
        | .success userId =>
            match sb.getFullProfile userId with
            | .thrown => (none, jar)
            | .fetched none => (none, jar)
            | .fetched (some profile) => (some (userId, profile), jar)

/-! ## Row-level-security policies
(`supabase/migrations/..._add_authentication_security.sql`)

`auth.uid()` is the authenticated actor's id (the policies are all
`TO authenticated`, except reads which also admit `anon`). A policy's
subquery on `user_profiles` runs under that table's own SELECT policy
(`USING (is_active = true)`), so the subqueries only see active rows;
for the content-table policies this is absorbed by their explicit
`is_active = true` conjunct, but for the `user_profiles` UPDATE policy
it means the self-lookup sees nothing when the actor is inactive. -/

/-- The subquery `EXISTS (SELECT 1 FROM user_profiles WHERE id =
auth.uid() AND is_active = true AND role IN ('admin', 'editor'))`. -/
def existsActiveAdminEditor (db : ProfilesTable) (uid : String) : Bool :=
  List.any db (fun p =>
    p.id == uid && p.is_active
      && (p.role == Role.admin || p.role == Role.editor))

/-- The subquery `EXISTS (SELECT 1 FROM user_profiles WHERE id =
auth.uid() AND is_active = true AND role = 'admin')`. -/
def existsActiveAdmin (db : ProfilesTable) (uid : String) : Bool :=
  List.any db (fun p => p.id == uid && p.is_active && p.role == Role.admin)

/-! The final policy set on `page_content_sections` contains two
generations of permissive policies. The anonymous-access migration
("Fix CMS RLS Policies for Anonymous Access") dropped the original
`create_cms_content_system` policies and created "Allow read all
sections" / "Allow insert sections" / "Allow update sections" / "Allow
delete sections", all `TO anon, authenticated` with `USING (true)` or
`WITH CHECK (true)`. The later securing migration ("Add Authentication
and Production-Level Security") drops only the original policy names
("Public can read active sections", "Authenticated users can
insert/update/delete sections") — already gone — and never drops the
"Allow ..." policies, so they remain alongside its restrictive ones.
PostgreSQL combines permissive policies for the same command with OR,
so the effective decision is the disjunction of both generations. -/

/-- Policy "Anyone can read active sections" (securing migration):
`USING (is_active = true)`, granted to `anon` and `authenticated`
alike, so it takes no actor. -/
def anyoneCanReadActiveSections (sec : Section) : Bool :=
  sec.is_active

/-- Policy "Allow read all sections" (anonymous-access migration, never
dropped): `USING (true)`. -/
def allowReadAllSections : Bool :=
  true

/-- Effective SELECT decision on sections: OR of the two surviving
permissive SELECT policies. -/
def sectionSelectAllowed (sec : Section) : Bool :=
  anyoneCanReadActiveSections sec || allowReadAllSections

/-- Policy "Authenticated users can create sections" (securing
migration): `WITH CHECK (auth.uid() = created_by AND EXISTS (... active
admin/editor ...))`. -/
def authUsersCanCreateSections (db : ProfilesTable) (uid : String)
    (new : Section) : Bool :=
  uid == new.created_by && existsActiveAdminEditor db uid

/-- Policy "Allow insert sections" (anonymous-access migration, never
dropped): `WITH CHECK (true)`. -/
def allowInsertSections : Bool :=
  true

/-- Effective INSERT decision on sections: OR of the two surviving
permissive INSERT policies. -/
def sectionInsertAllowed (db : ProfilesTable) (uid : String)
    (new : Section) : Bool :=
  authUsersCanCreateSections db uid new || allowInsertSections

/-- Policy "Admin and editors can update any section, creators can
update their own" (securing migration): the same `created_by =
auth.uid() OR EXISTS (... active admin/editor ...)` expression as
`USING` on the old row and `WITH CHECK` on the new row. -/
def adminEditorOrCreatorSections (db : ProfilesTable) (uid : String)
    (sec : Section) : Bool :=
  sec.created_by == uid || existsActiveAdminEditor db uid

/-- Policy "Allow update sections" (anonymous-access migration, never
dropped): `USING (true)` and `WITH CHECK (true)`. -/
def allowUpdateSections : Bool :=
  true

/-- Effective UPDATE decision on sections: the old row must pass the OR
of the `USING` clauses and the new row the OR of the `WITH CHECK`
clauses of the two surviving permissive UPDATE policies. -/
def sectionUpdateAllowed (db : ProfilesTable) (uid : String)
    (old new : Section) : Bool :=
  (adminEditorOrCreatorSections db uid old || allowUpdateSections)
    && (adminEditorOrCreatorSections db uid new || allowUpdateSections)

/-- Policy "Admin and creators can delete sections" (securing
migration): `USING (created_by = auth.uid() OR EXISTS (... active
admin ...))`. -/
def adminOrCreatorDeleteSections (db : ProfilesTable) (uid : String)
    (sec : Section) : Bool :=
  sec.created_by == uid || existsActiveAdmin db uid

/-- Policy "Allow delete sections" (anonymous-access migration, never
dropped): `USING (true)`. -/
def allowDeleteSections : Bool :=
  true

/-- Effective DELETE decision on sections: OR of the two surviving
permissive DELETE policies. -/
def sectionDeleteAllowed (db : ProfilesTable) (uid : String)
    (sec : Section) : Bool :=
  adminOrCreatorDeleteSections db uid sec || allowDeleteSections

/-- The row of `user_profiles` with `id = auth.uid()` that a policy
subquery can see: RLS restricts the lookup to active rows (`id` is the
primary key, so at most one row matches). -/
def visibleProfile (db : ProfilesTable) (uid : String) : Option ProfileRow :=
  List.find? (fun p => p.is_active && p.id == uid) db

/-- Policy "Users can update their own profile": `USING (auth.uid() =
id)` on the old row; `WITH CHECK (auth.uid() = id AND role = (SELECT
role FROM user_profiles WHERE id = auth.uid()) AND is_active = (SELECT
is_active FROM user_profiles WHERE id = auth.uid()))` on the new row.
A NULL subquery result makes the comparison non-true, hence deny. -/
def profileUpdateAllowed (db : ProfilesTable) (uid : String)
    (old new : ProfileRow) : Bool :=
  (uid == old.id) && (uid == new.id)
    && (match visibleProfile db uid with
        | some cur => new.role == cur.role && new.is_active == cur.is_active
        | none => false)

/-! ## Concrete sample data used by the closed witness theorems -/

/-- A downstream response with one pre-existing header. -/
def sampleNext : Response :=
  { redirectTo := none, headers := [("Content-Type", "text-html")] }

/-- A backend on which every token is invalid and no profile exists. -/
def sbAllInvalid : Supabase :=
  { getUser := fun _ => .failure,
    getGateProfile := fun _ => .fetched none,
    getFullProfile := fun _ => .fetched none }

/-- A backend that resolves every token to user `u1`, whose profile is
an inactive editor. -/
def sbInactiveEditor : Supabase :=
  { getUser := fun _ => .success "u1",
    getGateProfile := fun _ => .fetched (some ⟨Role.editor, false⟩),
    getFullProfile := fun _ =>
      .fetched (some ⟨"u1", "u1-at-example.com", some "U One", Role.editor, false⟩) }

/-- A backend that resolves every token to user `u1`, an active
editor. -/
def sbActiveEditor : Supabase :=
  { getUser := fun _ => .success "u1",
    getGateProfile := fun _ => .fetched (some ⟨Role.editor, true⟩),
    getFullProfile := fun _ =>
      .fetched (some ⟨"u1", "u1-at-example.com", some "U One", Role.editor, true⟩) }

/-- A cookie jar holding both session cookies and one unrelated
cookie. -/
def sampleJar : CookieJar :=
  [("sb-access-token", "tok"), ("sb-refresh-token", "ref"), ("theme", "dark")]

/-- A backend that resolves every token to user `u9`, an active
viewer. -/
def sbActiveViewer : Supabase :=
  { getUser := fun _ => .success "u9",
    getGateProfile := fun _ => .fetched (some ⟨Role.viewer, true⟩),
    getFullProfile := fun _ =>
      .fetched (some ⟨"u9", "u9-at-example.com", none, Role.viewer, true⟩) }

/-- A `user_profiles` state whose only row is an inactive editor
`u1`. -/
def dbInactive : ProfilesTable :=
  [⟨"u1", "u1-at-example.com", some "U One", Role.editor, false⟩]

/-- A section created by `u1`. -/
def secOwnU1 : Section := ⟨"u1", true⟩

/-- The `user_profiles` state of the spec's Scenario E: `u2` and `u3`
are active editors, `u4` is an active viewer. -/
def dbScenarioE : ProfilesTable :=
  [⟨"u2", "u2-at-example.com", none, Role.editor, true⟩,
   ⟨"u3", "u3-at-example.com", none, Role.editor, true⟩,
   ⟨"u4", "u4-at-example.com", none, Role.viewer, true⟩]

/-- The Scenario E content resource, created by `u2`. -/
def secByU2 : Section := ⟨"u2", true⟩

/-- A concrete active-editor profile row for `u1`. -/
def rowU1 : ProfileRow :=
  ⟨"u1", "u1-at-example.com", some "U One", Role.editor, true⟩

/-! ## Theorems -/

/-- Helper: reading a cookie from a non-empty jar checks the head
first. -/
theorem cookieGet_cons (p : String × String) (t : CookieJar) (name : String) :
    cookieGet (p :: t) name =
      if p.1 == name then some p.2 else cookieGet t name := by
  simp only [cookieGet, List.find?_cons]
  cases h : (p.1 == name) <;> simp [h]

/-- Helper: deleting a cookie from a non-empty jar filters the head. -/
theorem cookieDelete_cons (p : String × String) (t : CookieJar)
    (name : String) :
    cookieDelete (p :: t) name =
      if p.1 == name then cookieDelete t name else p :: cookieDelete t name := by
  simp only [cookieDelete, List.filter_cons, bne]
  cases h : (p.1 == name) <;> simp [h]

/-- Helper: a deleted cookie can no longer be read. -/
theorem cookieGet_cookieDelete_same (jar : CookieJar) (name : String) :
    cookieGet (cookieDelete jar name) name = none := by
  induction jar with
  | nil => rfl
  | cons p t ih =>
      rw [cookieDelete_cons]
      cases h : (p.1 == name) with
      | false =>
          rw [if_neg (by simp [h]), cookieGet_cons, if_neg (by simp [h])]
          exact ih
      | true =>
          rw [if_pos (by simp [h])]
          exact ih

/-- Helper: deleting one cookie does not affect reads of another. -/
theorem cookieGet_cookieDelete_other (jar : CookieJar) (name other : String)
    (h : other ≠ name) :
    cookieGet (cookieDelete jar name) other = cookieGet jar other := by
  induction jar with
  | nil => rfl
  | cons p t ih =>
      rw [cookieDelete_cons, cookieGet_cons]
      cases h1 : (p.1 == name) with
      | true =>
          rw [if_pos (by simp [h1])]
          have h2 : (p.1 == other) = false := by
            have hpn : p.1 = name := by simpa using h1
            have hno : name ≠ other := fun he => h he.symm
            simp [hpn, hno]
          rw [if_neg (by simp [h2])]
          exact ih
      | false =>
          rw [if_neg (by simp [h1]), cookieGet_cons]
          cases h2 : (p.1 == other) with
          | true => rw [if_pos (by simp [h2]), if_pos (by simp [h2])]
          | false =>
              rw [if_neg (by simp [h2]), if_neg (by simp [h2])]
              exact ih

/-- Claim C5: on a protected route, a request with no access-token
cookie is redirected to `/login` with the cookie jar untouched, and a
request whose (non-empty) access token the Credential Store rejects has
both session cookies deleted and is then redirected to `/login`. -/
theorem gate_missing_or_invalid_token (sb : Supabase) (path : String)
    (jar : CookieJar) (next : Response) (hp : isProtectedRoute path = true) :
    (cookieGet jar "sb-access-token" = none →
      onRequest sb path jar next =
        { response := redirectResponse "/login", jar := jar, locals := none,
          calledGetUser := false, calledGetProfile := false }) ∧
    (∀ t, cookieGet jar "sb-access-token" = some t → t ≠ "" →
      sb.getUser t = GetUserOutcome.failure →
      (onRequest sb path jar next).response = redirectResponse "/login" ∧
      (onRequest sb path jar next).jar =
        cookieDelete (cookieDelete jar "sb-access-token") "sb-refresh-token" ∧
      cookieGet (onRequest sb path jar next).jar "sb-access-token" = none ∧
      cookieGet (onRequest sb path jar next).jar "sb-refresh-token" = none) := by
  constructor
  · intro h0
    simp [onRequest, hp, h0]
  · intro t ht hne hfail
    have hbeq : (t == "") = false := by
      simpa using hne
    have hres : onRequest sb path jar next =
        { response := redirectResponse "/login",
          jar := cookieDelete (cookieDelete jar "sb-access-token")
            "sb-refresh-token",
          locals := none, calledGetUser := true,
          calledGetProfile := false } := by
      simp [onRequest, hp, ht, hbeq, hfail]
    rw [hres]
    refine ⟨rfl, rfl, ?_, cookieGet_cookieDelete_same _ _⟩
    rw [cookieGet_cookieDelete_other _ _ _ (by decide)]
    exact cookieGet_cookieDelete_same _ _

/-- Witness for C5 at a concrete request: backend rejecting every token,
path `/admin`, a jar with both cookies plus an unrelated one. -/
theorem gate_missing_or_invalid_token_witness :
    (onRequest sbAllInvalid "/admin" [] sampleNext =
      { response := redirectResponse "/login", jar := [], locals := none,
        calledGetUser := false, calledGetProfile := false }) ∧
    (onRequest sbAllInvalid "/admin" sampleJar sampleNext).response =
      redirectResponse "/login" ∧
    cookieGet (onRequest sbAllInvalid "/admin" sampleJar sampleNext).jar
      "sb-access-token" = none ∧
    cookieGet (onRequest sbAllInvalid "/admin" sampleJar sampleNext).jar
      "sb-refresh-token" = none := by
  have h1 := gate_missing_or_invalid_token sbAllInvalid "/admin" []
    sampleNext (by decide)
  have h2 := gate_missing_or_invalid_token sbAllInvalid "/admin" sampleJar
    sampleNext (by decide)
  have h3 := h2.2 "tok" (by decide) (by decide) rfl
  exact ⟨h1.1 rfl, h3.1, h3.2.2.1, h3.2.2.2⟩

/-- Claim C6: on a protected route with a valid access token, a missing
profile row or an inactive profile makes the gate redirect to
`/login?error=inactive`, with both session cookies (the whole jar)
untouched and no context attached. -/
theorem gate_inactive_or_missing_profile (sb : Supabase) (path : String)
    (jar : CookieJar) (next : Response) (t uid : String)
    (p : Option GateProfile) (hp : isProtectedRoute path = true)
    (ht : cookieGet jar "sb-access-token" = some t) (hne : t ≠ "")
    (hu : sb.getUser t = GetUserOutcome.success uid)
    (hprof : sb.getGateProfile uid = FetchOutcome.fetched p)
    (hbad : p = none ∨ ∃ prof, p = some prof ∧ prof.is_active = false) :
    onRequest sb path jar next =
      { response := redirectResponse "/login?error=inactive", jar := jar,
        locals := none, calledGetUser := true, calledGetProfile := true } := by
  have hbeq : (t == "") = false := by
    simpa using hne
  rcases hbad with h0 | ⟨prof, hsome, hact⟩
  · subst h0
    simp [onRequest, hp, ht, hbeq, hu, hprof]
  · subst hsome
    simp [onRequest, hp, ht, hbeq, hu, hprof, hact]

/-- Witness for C6 at a concrete request: a backend resolving the token
to an inactive editor, path `/cms-admin`, the sample jar. -/
theorem gate_inactive_or_missing_profile_witness :
    onRequest sbInactiveEditor "/cms-admin" sampleJar sampleNext =
      { response := redirectResponse "/login?error=inactive",
        jar := sampleJar, locals := none, calledGetUser := true,
        calledGetProfile := true } := by
  exact gate_inactive_or_missing_profile sbInactiveEditor "/cms-admin"
    sampleJar sampleNext "tok" "u1" (some ⟨Role.editor, false⟩) (by decide)
    (by decide) (by decide) rfl rfl (Or.inr ⟨⟨Role.editor, false⟩, rfl, rfl⟩)

/-- Claim C7: on a protected route with a valid token and an active
profile, a `viewer` is redirected to `/login?error=unauthorized`, while
an `editor` or `admin` proceeds: the response is the downstream response
with the security headers stamped, and `(identity, profile)` is attached
to the context. -/
theorem gate_role_gate (sb : Supabase) (path : String) (jar : CookieJar)
    (next : Response) (t uid : String) (prof : GateProfile)
    (hp : isProtectedRoute path = true)
    (ht : cookieGet jar "sb-access-token" = some t) (hne : t ≠ "")
    (hu : sb.getUser t = GetUserOutcome.success uid)
    (hprof : sb.getGateProfile uid = FetchOutcome.fetched (some prof))
    (hact : prof.is_active = true) :
    (prof.role = Role.viewer →
      onRequest sb path jar next =
        { response := redirectResponse "/login?error=unauthorized",
          jar := jar, locals := none, calledGetUser := true,
          calledGetProfile := true }) ∧
    (prof.role = Role.editor ∨ prof.role = Role.admin →
      onRequest sb path jar next =
        { response := stampHeaders next, jar := jar,
          locals := some (uid, prof), calledGetUser := true,
          calledGetProfile := true }) := by
  have hbeq : (t == "") = false := by
    simpa using hne
  constructor
  · intro hv
    simp [onRequest, hp, ht, hbeq, hu, hprof, hact, hv]
  · intro hr
    have hnv : (prof.role == Role.viewer) = false := by
      rcases hr with h0 | h0 <;> simp [h0]
    simp [onRequest, hp, ht, hbeq, hu, hprof, hact, hnv]

/-- Witness for C7 at a concrete request: an active editor requesting
`/cms-admin` proceeds with the context attached. -/
theorem gate_role_gate_witness :
    onRequest sbActiveEditor "/cms-admin" sampleJar sampleNext =
      { response := stampHeaders sampleNext, jar := sampleJar,
        locals := some ("u1", ⟨Role.editor, true⟩), calledGetUser := true,
        calledGetProfile := true } := by
  exact (gate_role_gate sbActiveEditor "/cms-admin" sampleJar sampleNext
    "tok" "u1" ⟨Role.editor, true⟩ (by decide) (by decide) (by decide)
    rfl rfl rfl).2 (Or.inl rfl)

/-- Claim C8: the gate's decision is deterministic — evaluating the same
invalid-token request twice, against the same backend responses, yields
the same redirect target, and that target is `/login`. -/
theorem gate_redirect_deterministic (sb : Supabase) (path : String)
    (jar : CookieJar) (next : Response) (t : String)
    (hp : isProtectedRoute path = true)
    (ht : cookieGet jar "sb-access-token" = some t) (hne : t ≠ "")
    (hfail : sb.getUser t = GetUserOutcome.failure) :
    (onRequest sb path jar next).response.redirectTo =
      (onRequest sb path jar next).response.redirectTo ∧
    (onRequest sb path jar next).response.redirectTo = some "/login" := by
  have hbeq : (t == "") = false := by
    simpa using hne
  refine ⟨rfl, ?_⟩
  simp [onRequest, hp, ht, hbeq, hfail, redirectResponse]

/-- Witness for C8 at a concrete invalid-token request. -/
theorem gate_redirect_deterministic_witness :
    (onRequest sbAllInvalid "/admin" sampleJar sampleNext).response.redirectTo =
      (onRequest sbAllInvalid "/admin" sampleJar sampleNext).response.redirectTo ∧
    (onRequest sbAllInvalid "/admin" sampleJar sampleNext).response.redirectTo =
      some "/login" := by
  exact gate_redirect_deterministic sbAllInvalid "/admin" sampleJar
    sampleNext "tok" (by decide) (by decide) (by decide) rfl

/-- Claim C9: on a path outside the protected prefixes the gate calls
neither the Credential Store nor the Profile Repository, attaches no
context, leaves the cookie jar unchanged, and returns the downstream
response with only the five security headers added (in particular it
introduces no redirect of its own). -/
theorem gate_unprotected_frame (sb : Supabase) (path : String)
    (jar : CookieJar) (next : Response)
    (hp : isProtectedRoute path = false) :
    onRequest sb path jar next =
      { response := stampHeaders next, jar := jar, locals := none,
        calledGetUser := false, calledGetProfile := false } ∧
    (onRequest sb path jar next).response.redirectTo = next.redirectTo := by
  have h0 : onRequest sb path jar next =
      { response := stampHeaders next, jar := jar, locals := none,
        calledGetUser := false, calledGetProfile := false } := by
    simp [onRequest, hp]
  exact ⟨h0, by rw [h0]; rfl⟩

/-- Witness for C9 at a concrete public request (`/blog/post-1`). -/
theorem gate_unprotected_frame_witness :
    onRequest sbAllInvalid "/blog/post-1" sampleJar sampleNext =
      { response := stampHeaders sampleNext, jar := sampleJar,
        locals := none, calledGetUser := false,
        calledGetProfile := false } ∧
    (onRequest sbAllInvalid "/blog/post-1" sampleJar
      sampleNext).response.redirectTo = none := by
  exact gate_unprotected_frame sbAllInvalid "/blog/post-1" sampleJar
    sampleNext (by decide)

/-- Claim C10: `getCurrentUser` never modifies the cookie jar — every
outcome returns the jar unchanged (unlike the gate it does not clear
cookies on an invalid token) — and it returns a non-null pair exactly
when the (non-empty) access token resolves to an identity and a profile
row exists for it; in every other outcome it returns `none`. -/
theorem getCurrentUser_frame (sb : Supabase) (jar : CookieJar) :
    (getCurrentUser sb jar).2 = jar ∧
    (∀ u p, (getCurrentUser sb jar).1 = some (u, p) ↔
      ∃ t, cookieGet jar "sb-access-token" = some t ∧ t ≠ "" ∧
        sb.getUser t = GetUserOutcome.success u ∧
        sb.getFullProfile u = FetchOutcome.fetched (some p)) := by
  cases hc : cookieGet jar "sb-access-token" with
  | none =>
      refine ⟨by simp [getCurrentUser, hc], fun u p => ?_⟩
      simp [getCurrentUser, hc]
  | some t =>
      cases ht : (t == "") with
      | true =>
          have hte : t = "" := by simpa using ht
          refine ⟨by simp [getCurrentUser, hc, ht], fun u p => ?_⟩
          constructor
          · intro h
            simp [getCurrentUser, hc, ht] at h
          · rintro ⟨t', hc', hne', _, _⟩
            injection hc' with he
            exact absurd (he ▸ hte) hne'
      | false =>
          cases hu : sb.getUser t with
          | thrown =>
              refine ⟨by simp [getCurrentUser, hc, ht, hu], fun u p => ?_⟩
              simp [getCurrentUser, hc, ht, hu]
          | failure =>
              refine ⟨by simp [getCurrentUser, hc, ht, hu], fun u p => ?_⟩
              simp [getCurrentUser, hc, ht, hu]
          | success uid =>
              cases hf : sb.getFullProfile uid with
              | thrown =>
                  refine ⟨by simp [getCurrentUser, hc, ht, hu, hf],
                    fun u p => ?_⟩
                  constructor
                  · intro h
                    simp [getCurrentUser, hc, ht, hu, hf] at h
                  · rintro ⟨t', hc', hne', hu', hf'⟩
                    injection hc' with he
                    subst he
                    rw [hu] at hu'
                    injection hu' with he2
                    subst he2
                    rw [hf] at hf'
                    exact absurd hf' (by simp)
              | fetched row =>
                  cases row with
                  | none =>
                      refine ⟨by simp [getCurrentUser, hc, ht, hu, hf],
                        fun u p => ?_⟩
                      constructor
                      · intro h
                        simp [getCurrentUser, hc, ht, hu, hf] at h
                      · rintro ⟨t', hc', hne', hu', hf'⟩
                        injection hc' with he
                        subst he
                        rw [hu] at hu'
                        injection hu' with he2
                        subst he2
                        rw [hf] at hf'
                        exact absurd hf' (by simp)
                  | some profile =>
                      refine ⟨by simp [getCurrentUser, hc, ht, hu, hf],
                        fun u p => ?_⟩
                      constructor
                      · intro h
                        simp only [getCurrentUser, hc, ht, hu, hf] at h
                        simp only [Bool.false_eq_true, if_false] at h
                        injection h with he
                        injection he with he1 he2
                        subst he1
                        subst he2
                        exact ⟨t, rfl, by simpa using ht, hu, hf⟩
                      · rintro ⟨t', hc', hne', hu', hf'⟩
                        injection hc' with he
                        subst he
                        rw [hu] at hu'
                        injection hu' with he2
                        subst he2
                        rw [hf] at hf'
                        injection hf' with he3
                        injection he3 with he4
                        subst he4
                        simp [getCurrentUser, hc, ht, hu, hf]

/-- Witness for C10 at concrete inputs: an invalid-token jar is returned
unchanged with a `none` result, and a valid-token jar resolves to the
active editor's pair. -/
theorem getCurrentUser_frame_witness :
    (getCurrentUser sbAllInvalid sampleJar).2 = sampleJar ∧
    (getCurrentUser sbAllInvalid sampleJar).1 = none ∧
    (getCurrentUser sbActiveEditor sampleJar).2 = sampleJar ∧
    (getCurrentUser sbActiveEditor sampleJar).1 = some ("u1", rowU1) := by
  have h1 := getCurrentUser_frame sbAllInvalid sampleJar
  have h2 := getCurrentUser_frame sbActiveEditor sampleJar
  refine ⟨h1.1, ?_, h2.1, ?_⟩
  · by_contra hne
    obtain ⟨u, p, hup⟩ : ∃ u p, (getCurrentUser sbAllInvalid sampleJar).1 =
        some (u, p) := by
      cases h0 : (getCurrentUser sbAllInvalid sampleJar).1 with
      | none => exact absurd h0 hne
      | some v => exact ⟨v.1, v.2, by simp [h0]⟩
    obtain ⟨t, hc, hnet, hu, hf⟩ := (h1.2 u p).mp hup
    rw [show cookieGet sampleJar "sb-access-token" = some "tok" from rfl]
      at hc
    injection hc with he
    subst he
    exact absurd hu (by simp [sbAllInvalid])
  · exact (h2.2 "u1" rowU1).mpr ⟨"tok", rfl, by decide, rfl, rfl⟩

/-- Claim C2 is violated by the code: the middleware's deny/redirect
responses are returned before `next()` and before the five
`headers.set` calls, so they carry none of the security headers. The
four deny kinds (missing token, invalid token, inactive profile,
insufficient role) all produce redirect responses with an empty header
list. -/
theorem deny_responses_lack_security_headers :
    (onRequest sbAllInvalid "/admin" [] sampleNext).response =
      { redirectTo := some "/login", headers := [] } ∧
    (onRequest sbAllInvalid "/admin" sampleJar sampleNext).response =
      { redirectTo := some "/login", headers := [] } ∧
    (onRequest sbInactiveEditor "/cms-admin" sampleJar sampleNext).response =
      { redirectTo := some "/login?error=inactive", headers := [] } ∧
    (onRequest sbActiveViewer "/cms-admin" sampleJar sampleNext).response =
      { redirectTo := some "/login?error=unauthorized", headers := [] } ∧
    securityHeaders.length = 5 := by
  decide

/-- Claim C1 is violated by the code: here is a state whose only
profile row is inactive (so the actor `u1` is inactive), yet the
storage layer allows `u1` to create a section, to read an inactive
(non-public) section, and to update and delete a section created by
someone else — the never-dropped "Allow ..." policies from the
anonymous-access migration admit every operation. -/
theorem inactive_actor_storage_actions_allowed :
    (List.all dbInactive (fun p => !p.is_active)) = true ∧
    sectionInsertAllowed dbInactive "u1" secOwnU1 = true ∧
    sectionSelectAllowed ⟨"u2", false⟩ = true ∧
    secByU2.created_by = "u2" ∧
    sectionUpdateAllowed dbInactive "u1" secByU2 secByU2 = true ∧
    sectionDeleteAllowed dbInactive "u1" secByU2 = true := by
  decide

/-- Claim C1 as amended: an actor whose profile rows are all inactive
is still turned away from protected routes by the Session Gate, but no
storage-layer action on sections is denied: because the permissive
"Allow read all/insert/update/delete sections" policies survive the
securing migration and permissive policies combine by OR, create, read
of inactive sections, and update/delete of any section (owned or not)
are all allowed to such an actor. -/
theorem inactive_actor_gate_denied_storage_allowed (db : ProfilesTable)
    (uid : String) (_h : ∀ p ∈ db, p.id = uid → p.is_active = false) :
    (∀ new, sectionInsertAllowed db uid new = true) ∧
    (∀ old new, sectionUpdateAllowed db uid old new = true) ∧
    (∀ sec, sectionDeleteAllowed db uid sec = true) ∧
    (∀ sec, sectionSelectAllowed sec = true) ∧
    (∀ sb path jar next t prof, isProtectedRoute path = true →
      cookieGet jar "sb-access-token" = some t → t ≠ "" →
      sb.getUser t = GetUserOutcome.success uid →
      sb.getGateProfile uid = FetchOutcome.fetched (some prof) →
      prof.is_active = false →
      (onRequest sb path jar next).response =
        redirectResponse "/login?error=inactive") := by
  refine ⟨?_, ?_, ?_, ?_, ?_⟩
  · intro new
    simp [sectionInsertAllowed, allowInsertSections]
  · intro old new
    simp [sectionUpdateAllowed, allowUpdateSections]
  · intro sec
    simp [sectionDeleteAllowed, allowDeleteSections]
  · intro sec
    simp [sectionSelectAllowed, allowReadAllSections]
  · intro sb path jar next t prof hp ht hne hu hprof hact
    have hbeq : (t == "") = false := by
      simpa using hne
    simp [onRequest, hp, ht, hbeq, hu, hprof, hact]

/-- Witness for the amended C1 at the concrete inactive-editor state. -/
theorem inactive_actor_gate_denied_storage_allowed_witness :
    sectionInsertAllowed dbInactive "u1" secOwnU1 = true ∧
    sectionUpdateAllowed dbInactive "u1" secByU2 secByU2 = true ∧
    sectionDeleteAllowed dbInactive "u1" secByU2 = true ∧
    sectionSelectAllowed ⟨"u2", false⟩ = true ∧
    (onRequest sbInactiveEditor "/admin" sampleJar sampleNext).response =
      redirectResponse "/login?error=inactive" := by
  have h := inactive_actor_gate_denied_storage_allowed dbInactive "u1"
    (by decide)
  exact ⟨h.1 secOwnU1,
    h.2.1 secByU2 secByU2,
    h.2.2.1 secByU2,
    h.2.2.2.1 ⟨"u2", false⟩,
    h.2.2.2.2 sbInactiveEditor "/admin" sampleJar sampleNext "tok"
      ⟨Role.editor, false⟩ (by decide) (by decide) (by decide) rfl rfl rfl⟩

/-- Claim C3 is violated by the code: in Scenario E's state, `u4` is an
active viewer and not the creator, and the claim says its delete is
denied — but the never-dropped "Allow delete sections" policy
(`USING (true)`) ORs into the delete decision and allows it. -/
theorem viewer_nonowner_delete_allowed :
    (List.find? (fun p => p.id == "u4") dbScenarioE) =
      some ⟨"u4", "u4-at-example.com", none, Role.viewer, true⟩ ∧
    secByU2.created_by = "u2" ∧
    sectionDeleteAllowed dbScenarioE "u4" secByU2 = true := by
  decide

/-- Claim C3 as amended: deleting `u2`'s section is allowed for the
creator `u2` and for the distinct active editor `u3`, as the claim
says — but also for the viewer `u4`, because the surviving permissive
"Allow delete sections" policy admits every delete. -/
theorem delete_scenario_all_allowed :
    sectionDeleteAllowed dbScenarioE "u2" secByU2 = true ∧
    sectionDeleteAllowed dbScenarioE "u3" secByU2 = true ∧
    sectionDeleteAllowed dbScenarioE "u4" secByU2 = true := by
  decide

/-- Claim C4: with the actor's own active row visible to the policy
subqueries, any profile update that changes `role` or `is_active` is
rejected for a non-admin actor (the `WITH CHECK` pins both to their
stored values), a self-update changing only `full_name` succeeds, and
an update of a different user's row is rejected outright (`USING
auth.uid() = id`). -/
theorem profile_privileged_update_locked (db : ProfilesTable)
    (uid : String) (old : ProfileRow)
    (hvis : visibleProfile db uid = some old)
    (_hrole : old.role ≠ Role.admin) :
    (∀ new, new.role ≠ old.role ∨ new.is_active ≠ old.is_active →
      profileUpdateAllowed db uid old new = false) ∧
    (∀ name, profileUpdateAllowed db uid old
      { old with full_name := name } = true) ∧
    (∀ old' new', uid ≠ old'.id →
      profileUpdateAllowed db uid old' new' = false) := by
  have hid : old.id = uid := by
    have hmm := List.find?_some hvis
    simp only [Bool.and_eq_true, beq_iff_eq] at hmm
    exact hmm.2
  refine ⟨?_, ?_, ?_⟩
  · intro new hchg
    rcases hchg with hr | ha
    · simp [profileUpdateAllowed, hvis, hr]
    · simp [profileUpdateAllowed, hvis, ha]
  · intro name
    simp [profileUpdateAllowed, hvis, hid]
  · intro old' new' hno
    simp [profileUpdateAllowed, hno]

/-- Witness for C4 at a concrete one-row state: `u1` (active editor)
cannot change its own `role` or `is_active`, can change `full_name`,
and cannot touch another id's row. -/
theorem profile_privileged_update_locked_witness :
    profileUpdateAllowed [rowU1] "u1" rowU1
      { rowU1 with role := Role.admin } = false ∧
    profileUpdateAllowed [rowU1] "u1" rowU1
      { rowU1 with is_active := false } = false ∧
    profileUpdateAllowed [rowU1] "u1" rowU1
      { rowU1 with full_name := some "New Name" } = true ∧
    profileUpdateAllowed [rowU1] "u1"
      ⟨"u2", "u2-at-example.com", none, Role.viewer, true⟩
      ⟨"u2", "u2-at-example.com", none, Role.admin, true⟩ = false := by
  have h := profile_privileged_update_locked [rowU1] "u1" rowU1
    (by decide) (by decide)
  exact ⟨h.1 _ (Or.inl (by decide)), h.1 _ (Or.inr (by decide)),
    h.2.1 (some "New Name"),
    h.2.2 ⟨"u2", "u2-at-example.com", none, Role.viewer, true⟩
      ⟨"u2", "u2-at-example.com", none, Role.admin, true⟩ (by decide)⟩

end AstroCms
